import Mathlib

/-!
Shallow embedding of the quiz flow controller in `script.js` of the
frontend-quiz-app repository: the session state fields of the `QuizApp`
class, the transition methods `selectSubject`, `selectOption`,
`submitAnswer`, `nextQuestion`, `startQuiz`/`renderQuestion`, the theme
methods `loadTheme`/`toggleTheme`, and the data loader `loadQuizzes`.
DOM rendering, CSS classes and screen-reader announcements are pure
presentation and are not part of the state model; the `setTimeout` that
`submitAnswer` schedules is modelled as a count of outstanding advance
callbacks (`pendingAdvances`), since the source stores no timer id and
never calls `clearTimeout`.
-/

namespace QuizApp

/-- A question object from `data.json`: prompt, option strings, answer string
(mirrors the `Question` typedef in the source). -/
structure Question where
  question : String
  options : List String
  answer : String
deriving Repr, DecidableEq

/-- A quiz object from `data.json` (mirrors the `Quiz` typedef). -/
structure Quiz where
  title : String
  icon : String
  questions : List Question
deriving Repr, DecidableEq

/-- The mutable session fields of the `QuizApp` class.  `currentQuiz` is kept
as an explicit parameter of the operations instead of a field.
`pendingAdvances` counts the `setTimeout(() => this.nextQuestion(), 2000)`
callbacks scheduled by `submitAnswer` and not yet fired; the source never
stores the timer id and never cancels it. -/
structure SessionState where
  currentQuestionIndex : Nat
  score : Nat
  selectedAnswer : Option Nat
  answered : Bool
  pendingAdvances : Nat
deriving Repr, DecidableEq

/-- The field values set by the `QuizApp` constructor. -/
def initState : SessionState :=
  { currentQuestionIndex := 0, score := 0, selectedAnswer := none,
    answered := false, pendingAdvances := 0 }

/-- `selectOption(optionIndex)`: early return when `this.answered`; otherwise
records the selection (DOM class updates omitted). -/
def selectOption (s : SessionState) (optionIndex : Nat) : SessionState :=
  if s.answered then s
  else { s with selectedAnswer := some optionIndex }

/-- `submitAnswer()`: early return when `this.selectedAnswer === null` or
`this.answered`.  Otherwise sets `answered = true`, reads
`question = currentQuiz.questions[currentQuestionIndex]`,
computes `isCorrect = question.options[selectedAnswer] === question.answer`
(string equality; an out-of-range option index reads `undefined`, which
compares unequal to any string), increments `score` iff correct, and
schedules one auto-advance timer.  When the question index is out of range
the property read `question.options` throws a TypeError after `answered`
was already set, so no score change and no timer occur in that case. -/
def submitAnswer (quiz : Quiz) (s : SessionState) : SessionState :=
  match s.selectedAnswer with
  | none => s
  | some selIdx =>
    if s.answered then s
    else
      match quiz.questions[s.currentQuestionIndex]? with
      | none => { s with answered := true }
      | some question =>
        { s with
            answered := true,
            score := s.score +
              (if question.options[selIdx]? = some question.answer then 1 else 0),
            pendingAdvances := s.pendingAdvances + 1 }

/-- `renderQuestion()`: reads `currentQuiz.questions[currentQuestionIndex]`;
when the index is out of range that value is `undefined` and the subsequent
`question.question` access throws (modelled as `none`), before the resets
further down the method run.  In range, it resets `selectedAnswer = null`
and `answered = false` (counter/progress/DOM updates omitted). -/
def renderQuestion (quiz : Quiz) (s : SessionState) : Option SessionState :=
  match quiz.questions[s.currentQuestionIndex]? with
  | none => none
  | some _ => some { s with selectedAnswer := none, answered := false }

/-- `startQuiz()`: shows the quiz screen and calls `renderQuestion()`.  It
does not modify `currentQuestionIndex`, `score`, `selectedAnswer` or
`answered` itself. -/
def startQuiz (quiz : Quiz) (s : SessionState) : Option SessionState :=
  renderQuestion quiz s

/-- `selectSubject(quizIndex)`: stores the chosen quiz in `currentQuiz`,
resets `currentQuestionIndex = 0`, `score = 0`, `selectedAnswer = null`,
`answered = false`, then calls `startQuiz()`.  No timer is cancelled:
`pendingAdvances` is carried over unchanged. -/
def selectSubject (quiz : Quiz) (s : SessionState) : Quiz × Option SessionState :=
  let reset : SessionState :=
    { currentQuestionIndex := 0, score := 0, selectedAnswer := none,
      answered := false, pendingAdvances := s.pendingAdvances }
  (quiz, startQuiz quiz reset)

/-- `nextQuestion()`: increments `currentQuestionIndex`; if the new index is
`>= questions.length` it shows the results screen (no field resets),
otherwise it calls `renderQuestion()`, which resets selection and the
answered flag. -/
def nextQuestion (quiz : Quiz) (s : SessionState) : SessionState :=
  let s' := { s with currentQuestionIndex := s.currentQuestionIndex + 1 }
  if quiz.questions.length ≤ s'.currentQuestionIndex then s'
  else { s' with selectedAnswer := none, answered := false }

/-- The theme-relevant external state: the `data-theme` attribute on
`document.documentElement` (absent attribute reads as `null`) and the
`quiz-theme` key in `localStorage`. -/
structure ThemeState where
  applied : Option String
  stored : Option String
deriving Repr, DecidableEq

/-- `loadTheme()`: `localStorage.getItem('quiz-theme') || 'light'` applied to
the document attribute; the stored key is not written. -/
def loadTheme (ts : ThemeState) : ThemeState :=
  { ts with applied := some (ts.stored.getD "light") }

/-- `toggleTheme()`: reads the applied attribute; the new theme is `'dark'`
when the current value is exactly `'light'` and `'light'` in every other
case (including a missing attribute, which reads as `null`); applies and
persists the new theme. -/
def toggleTheme (ts : ThemeState) : ThemeState :=
  let newTheme := if ts.applied = some "light" then "dark" else "light"
  { applied := some newTheme, stored := some newTheme }

/-- First question of the concrete quiz used in witnesses (Scenario A data). -/
def sampleQ1 : Question :=
  { question := "q1", options := ["a", "b", "c", "d"], answer := "b" }

/-- Second question of the concrete quiz used in witnesses. -/
def sampleQ2 : Question :=
  { question := "q2", options := ["w", "x", "y", "z"], answer := "z" }

/-- A concrete two-question quiz, the data of Scenario A of the spec. -/
def sampleQuiz : Quiz :=
  { title := "Sample", icon := "icon.svg", questions := [sampleQ1, sampleQ2] }

/-- One event of a single quiz attempt, processed on the single JS thread: a
pointer/keyboard selection of an option, a submit, or the firing of one of
the auto-advance callbacks scheduled by `submitAnswer` (firing requires an
outstanding callback). -/
inductive Step (quiz : Quiz) : SessionState → SessionState → Prop
  | selectOpt (s : SessionState) (i : Nat) : Step quiz s (selectOption s i)
  | submit (s : SessionState) : Step quiz s (submitAnswer quiz s)
  | advance (s : SessionState) (h : 0 < s.pendingAdvances) :
      Step quiz s
        (nextQuestion quiz { s with pendingAdvances := s.pendingAdvances - 1 })

/-- Session states reachable from the freshly selected quiz within one
attempt. -/
inductive Reachable (quiz : Quiz) : SessionState → Prop
  | init : Reachable quiz initState
  | step {s t : SessionState} :
      Reachable quiz s → Step quiz s t → Reachable quiz t

/-- Inductive invariant of a single attempt: the question index stays within
`[0, questions.length]`, at most one auto-advance callback is outstanding,
an outstanding callback implies the current question was answered, and in
the Complete state (`index = length`) no callback is outstanding. -/
def Inv (quiz : Quiz) (s : SessionState) : Prop :=
  s.currentQuestionIndex ≤ quiz.questions.length ∧
  s.pendingAdvances ≤ 1 ∧
  (0 < s.pendingAdvances → s.answered = true) ∧
  (s.currentQuestionIndex = quiz.questions.length → s.pendingAdvances = 0)

/-- The session just after selecting option 0 and submitting on the first
question of `sampleQuiz`: one auto-advance callback is outstanding. -/
def afterSubmit : SessionState :=
  submitAnswer sampleQuiz (selectOption initState 0)

/-- The Complete state of `sampleQuiz`: both questions answered and
`currentQuestionIndex = questions.length = 2`. -/
def completeState : SessionState :=
  { currentQuestionIndex := 2, score := 2, selectedAnswer := some 3,
    answered := true, pendingAdvances := 0 }

/-- A JSON value: the shape of the document that `response.json()` can
produce for `loadQuizzes`. -/
inductive Json where
  | null : Json
  | bool (b : Bool) : Json
  | num (n : Int) : Json
  | str (s : String) : Json
  | arr (elems : List Json) : Json
  | obj (fields : List (String × Json)) : Json

/-- Lookup of a property name in a JSON object's field list (first match,
as in a JS object). -/
def lookupField : List (String × Json) → String → Option Json
  | [], _ => none
  | (k, v) :: rest, name => if k = name then some v else lookupField rest name

/-- JS property access `doc.name`: the field's value when `doc` is an object
that has it, and `undefined` (`none`) otherwise.  (Reading a property off
the JSON value `null` would throw in JS; no claim touches that case, and an
absent field on any other value reads as `undefined`.) -/
def getField (doc : Json) (name : String) : Option Json :=
  match doc with
  | .obj fields => lookupField fields name
  | _ => none

/-- The failures `loadQuizzes` can propagate: a non-ok HTTP response (the
thrown `HTTP error! status: ...`) or a body on which `response.json()`
rejects. -/
inductive LoadError where
  | httpError : LoadError
  | parseError : LoadError
deriving Repr, DecidableEq

/-- The outcome of `fetch('./data.json')`: the `ok` flag and the body, with
`none` standing for a body that is not valid JSON. -/
structure FetchResponse where
  ok : Bool
  body : Option Json

/-- `loadQuizzes()`: throws when `!response.ok`, propagates a JSON parse
rejection, and otherwise runs `this.quizzes = data.quizzes` — a plain
property read with no shape validation, so whatever `data.quizzes` holds
(including `undefined` when the field is absent, or quiz objects missing
their own fields) is assigned and the method succeeds. -/
def loadQuizzes (resp : FetchResponse) : Except LoadError (Option Json) :=
  if resp.ok = false then .error .httpError
  else
    match resp.body with
    | none => .error .parseError
    | some data => .ok (getField data "quizzes")

/-- An input document whose single quiz object is missing its `questions`
field. -/
def malformedDoc : Json :=
  .obj [("quizzes",
    .arr [.obj [("title", .str "HTML"), ("icon", .str "icon.svg")]])]

end QuizApp

namespace QuizApp

/-- C1: with a selection set, the current question in range and the question
not yet answered, `submitAnswer` sets `answered` to true and increments
`score` by exactly 1 iff the option string at the selected index equals the
question's `answer` string (a value comparison, with no reference to the
answer's position); otherwise the score is unchanged. -/
theorem submitAnswer_correctness (quiz : Quiz) (s : SessionState) (q : Question)
    (selIdx : Nat)
    (hq : quiz.questions[s.currentQuestionIndex]? = some q)
    (hsel : s.selectedAnswer = some selIdx)
    (hans : s.answered = false) :
    (submitAnswer quiz s).answered = true ∧
    ((submitAnswer quiz s).score = s.score + 1 ↔
      q.options[selIdx]? = some q.answer) ∧
    (q.options[selIdx]? ≠ some q.answer →
      (submitAnswer quiz s).score = s.score) := by
  unfold submitAnswer
  rw [hsel, hans, hq]
  by_cases hcorrect : q.options[selIdx]? = some q.answer <;>
    simp [hcorrect]

/-- Witness for C1 at Scenario A's first question: selecting index 1 on
options `["a","b","c","d"]` with answer `"b"` scores the point. -/
theorem submitAnswer_correctness_witness :
    (submitAnswer sampleQuiz
        { currentQuestionIndex := 0, score := 0, selectedAnswer := some 1,
          answered := false, pendingAdvances := 0 }).answered = true ∧
    ((submitAnswer sampleQuiz
        { currentQuestionIndex := 0, score := 0, selectedAnswer := some 1,
          answered := false, pendingAdvances := 0 }).score = 0 + 1 ↔
      sampleQ1.options[1]? = some sampleQ1.answer) ∧
    (sampleQ1.options[1]? ≠ some sampleQ1.answer →
      (submitAnswer sampleQuiz
        { currentQuestionIndex := 0, score := 0, selectedAnswer := some 1,
          answered := false, pendingAdvances := 0 }).score = 0) :=
  submitAnswer_correctness sampleQuiz
    { currentQuestionIndex := 0, score := 0, selectedAnswer := some 1,
      answered := false, pendingAdvances := 0 }
    sampleQ1 1 rfl rfl rfl

/-- C2: `submitAnswer` with no selection, or on an already-answered question,
returns the state unchanged in every field. -/
theorem submitAnswer_noop (quiz : Quiz) (s : SessionState)
    (h : s.selectedAnswer = none ∨ s.answered = true) :
    submitAnswer quiz s = s := by
  unfold submitAnswer
  rcases h with h | h
  · rw [h]
  · cases hsel : s.selectedAnswer with
    | none => rfl
    | some selIdx => rw [h]; simp

/-- Witness for C2: the initial state has no selection, and submitting
leaves it unchanged. -/
theorem submitAnswer_noop_witness :
    submitAnswer sampleQuiz initState = initState :=
  submitAnswer_noop sampleQuiz initState (Or.inl rfl)

end QuizApp

namespace QuizApp

/-- C6: for every quiz with at least one question and every prior session
state, `selectSubject` stores that quiz and produces a session with
`currentQuestionIndex = 0`, `score = 0`, `selectedAnswer = none` and
`answered = false` (the subsequent `startQuiz`/`renderQuestion` succeeds and
keeps those resets). -/
theorem selectSubject_resets (quiz : Quiz) (s : SessionState)
    (hne : 0 < quiz.questions.length) :
    (selectSubject quiz s).1 = quiz ∧
    (selectSubject quiz s).2 =
      some { currentQuestionIndex := 0, score := 0, selectedAnswer := none,
             answered := false, pendingAdvances := s.pendingAdvances } := by
  obtain ⟨q, qs, hqs⟩ : ∃ q qs, quiz.questions = q :: qs := by
    cases h : quiz.questions with
    | nil => rw [h] at hne; simp at hne
    | cons q qs => exact ⟨q, qs, rfl⟩
  exact ⟨rfl, by simp [selectSubject, startQuiz, renderQuestion, hqs]⟩

/-- Witness for C6 at the concrete two-question quiz, starting from a
mid-quiz state. -/
theorem selectSubject_resets_witness :
    (selectSubject sampleQuiz
        { currentQuestionIndex := 1, score := 1, selectedAnswer := some 2,
          answered := true, pendingAdvances := 0 }).1 = sampleQuiz ∧
    (selectSubject sampleQuiz
        { currentQuestionIndex := 1, score := 1, selectedAnswer := some 2,
          answered := true, pendingAdvances := 0 }).2 =
      some { currentQuestionIndex := 0, score := 0, selectedAnswer := none,
             answered := false, pendingAdvances := 0 } :=
  selectSubject_resets sampleQuiz
    { currentQuestionIndex := 1, score := 1, selectedAnswer := some 2,
      answered := true, pendingAdvances := 0 } (by decide)

/-- C7: `nextQuestion` increments the question index by exactly 1, resetting
selection and the answered flag while the new index is still in range, and
otherwise only moving to the results (Complete) state; iterated from index
0 it visits index `k` exactly at the `k`-th call, stays in range for the
first `length` states, and lands on `index = length` (Complete) exactly at
call number `length`. -/
theorem nextQuestion_steps (quiz : Quiz) (s : SessionState)
    (h0 : s.currentQuestionIndex = 0) :
    (∀ t : SessionState, t.currentQuestionIndex + 1 < quiz.questions.length →
      nextQuestion quiz t =
        { t with currentQuestionIndex := t.currentQuestionIndex + 1,
                 selectedAnswer := none, answered := false }) ∧
    (∀ t : SessionState, quiz.questions.length ≤ t.currentQuestionIndex + 1 →
      nextQuestion quiz t =
        { t with currentQuestionIndex := t.currentQuestionIndex + 1 }) ∧
    (∀ k : Nat, ((nextQuestion quiz)^[k] s).currentQuestionIndex = k) ∧
    (∀ k : Nat, k < quiz.questions.length →
      ((nextQuestion quiz)^[k] s).currentQuestionIndex < quiz.questions.length) ∧
    ((nextQuestion quiz)^[quiz.questions.length] s).currentQuestionIndex =
      quiz.questions.length := by
  have step : ∀ t : SessionState,
      (nextQuestion quiz t).currentQuestionIndex = t.currentQuestionIndex + 1 := by
    intro t
    by_cases h : quiz.questions.length ≤ t.currentQuestionIndex + 1 <;>
      simp [nextQuestion, h]
  have iter : ∀ k : Nat, ((nextQuestion quiz)^[k] s).currentQuestionIndex = k := by
    intro k
    induction k with
    | zero => simpa using h0
    | succ n ih => rw [Function.iterate_succ_apply', step, ih]
  refine ⟨?_, ?_, iter, ?_, iter quiz.questions.length⟩
  · intro t ht
    simp [nextQuestion, Nat.not_le.mpr ht]
  · intro t ht
    simp [nextQuestion, ht]
  · intro k hk
    rw [iter]; exact hk

/-- Witness for C7 at the concrete two-question quiz from the freshly
selected state. -/
theorem nextQuestion_steps_witness :
    (∀ t : SessionState, t.currentQuestionIndex + 1 < sampleQuiz.questions.length →
      nextQuestion sampleQuiz t =
        { t with currentQuestionIndex := t.currentQuestionIndex + 1,
                 selectedAnswer := none, answered := false }) ∧
    (∀ t : SessionState, sampleQuiz.questions.length ≤ t.currentQuestionIndex + 1 →
      nextQuestion sampleQuiz t =
        { t with currentQuestionIndex := t.currentQuestionIndex + 1 }) ∧
    (∀ k : Nat, ((nextQuestion sampleQuiz)^[k] initState).currentQuestionIndex = k) ∧
    (∀ k : Nat, k < sampleQuiz.questions.length →
      ((nextQuestion sampleQuiz)^[k] initState).currentQuestionIndex <
        sampleQuiz.questions.length) ∧
    ((nextQuestion sampleQuiz)^[sampleQuiz.questions.length]
        initState).currentQuestionIndex = sampleQuiz.questions.length :=
  nextQuestion_steps sampleQuiz initState rfl

/-- C8: starting from an applied theme that is exactly `"light"` or exactly
`"dark"`, toggling twice returns the applied preference to its original
value, and after each single toggle the persisted value equals the applied
value. -/
theorem toggleTheme_roundtrip (ts : ThemeState)
    (h : ts.applied = some "light" ∨ ts.applied = some "dark") :
    (toggleTheme (toggleTheme ts)).applied = ts.applied ∧
    (toggleTheme ts).stored = (toggleTheme ts).applied ∧
    (toggleTheme (toggleTheme ts)).stored =
      (toggleTheme (toggleTheme ts)).applied := by
  rcases h with h | h <;> simp [toggleTheme, h]

/-- Witness for C8 starting from the light theme. -/
theorem toggleTheme_roundtrip_witness :
    (toggleTheme (toggleTheme { applied := some "light", stored := some "light" })).applied
        = (({ applied := some "light", stored := some "light" } : ThemeState)).applied ∧
    (toggleTheme { applied := some "light", stored := some "light" }).stored =
      (toggleTheme { applied := some "light", stored := some "light" }).applied ∧
    (toggleTheme (toggleTheme { applied := some "light", stored := some "light" })).stored =
      (toggleTheme (toggleTheme { applied := some "light", stored := some "light" })).applied :=
  toggleTheme_roundtrip { applied := some "light", stored := some "light" } (Or.inl rfl)

/-- C10: from any applied value other than exactly `"light"` (including an
absent attribute, read as `null`), `toggleTheme` applies and persists
`"light"`; only the exact applied value `"light"` produces `"dark"`; hence a
double toggle from such a state ends at `"dark"`. -/
theorem toggleTheme_nonlight (ts : ThemeState)
    (h : ts.applied ≠ some "light") :
    (toggleTheme ts).applied = some "light" ∧
    (toggleTheme ts).stored = some "light" ∧
    (toggleTheme (toggleTheme ts)).applied = some "dark" ∧
    (∀ u : ThemeState, (toggleTheme u).applied = some "dark" ↔
      u.applied = some "light") := by
  refine ⟨by simp [toggleTheme, h], by simp [toggleTheme, h],
    by simp [toggleTheme, h], ?_⟩
  intro u
  by_cases hu : u.applied = some "light" <;> simp [toggleTheme, hu]

/-- Witness for C10 starting from an unset theme attribute. -/
theorem toggleTheme_nonlight_witness :
    (toggleTheme { applied := none, stored := none }).applied = some "light" ∧
    (toggleTheme { applied := none, stored := none }).stored = some "light" ∧
    (toggleTheme (toggleTheme { applied := none, stored := none })).applied
        = some "dark" ∧
    (∀ u : ThemeState, (toggleTheme u).applied = some "dark" ↔
      u.applied = some "light") :=
  toggleTheme_nonlight { applied := none, stored := none } (by simp)

end QuizApp

namespace QuizApp

theorem nextQuestion_fields (quiz : Quiz) (s : SessionState) :
    (nextQuestion quiz s).currentQuestionIndex = s.currentQuestionIndex + 1 ∧
    (nextQuestion quiz s).score = s.score ∧
    (nextQuestion quiz s).pendingAdvances = s.pendingAdvances := by
  unfold nextQuestion
  by_cases hc : quiz.questions.length ≤ s.currentQuestionIndex + 1 <;> simp [hc]

theorem Inv_step {quiz : Quiz} {s t : SessionState} (hinv : Inv quiz s)
    (hstep : Step quiz s t) : Inv quiz t := by
  obtain ⟨h1, h2, h3, h4⟩ := hinv
  cases hstep with
  | selectOpt i =>
      unfold selectOption
      by_cases ha : s.answered = true
      · rw [if_pos ha]
        exact ⟨h1, h2, h3, h4⟩
      · rw [if_neg ha]
        exact ⟨h1, h2, h3, h4⟩
  | submit =>
      unfold submitAnswer
      cases hsel : s.selectedAnswer with
      | none => exact ⟨h1, h2, h3, h4⟩
      | some selIdx =>
          cases ha : s.answered with
          | true => exact ⟨h1, h2, fun _ => ha, h4⟩
          | false =>
              cases hq : quiz.questions[s.currentQuestionIndex]? with
              | none => exact ⟨h1, h2, fun _ => rfl, h4⟩
              | some q =>
                  have hlt : s.currentQuestionIndex < quiz.questions.length := by
                    by_contra hge
                    rw [List.getElem?_eq_none (Nat.le_of_not_lt hge)] at hq
                    exact Option.noConfusion hq
                  have hp0 : s.pendingAdvances = 0 := by
                    by_contra hne
                    rw [h3 (Nat.pos_of_ne_zero hne)] at ha
                    exact Bool.noConfusion ha
                  refine ⟨h1, ?_, fun _ => rfl, ?_⟩
                  · show s.pendingAdvances + 1 ≤ 1
                    omega
                  · intro hl
                    exact absurd hl (Nat.ne_of_lt hlt)
  | advance h =>
      have hne : s.currentQuestionIndex ≠ quiz.questions.length := by
        intro he
        rw [h4 he] at h
        exact Nat.lt_irrefl 0 h
      have hlt : s.currentQuestionIndex < quiz.questions.length :=
        lt_of_le_of_ne h1 hne
      unfold nextQuestion
      by_cases hc : quiz.questions.length ≤ s.currentQuestionIndex + 1
      · rw [if_pos hc]
        refine ⟨?_, ?_, ?_, fun _ => ?_⟩
        · show s.currentQuestionIndex + 1 ≤ quiz.questions.length
          omega
        · show s.pendingAdvances - 1 ≤ 1
          omega
        · intro hp
          have hp' : 0 < s.pendingAdvances - 1 := hp
          exact absurd hp' (by omega)
        · show s.pendingAdvances - 1 = 0
          omega
      · rw [if_neg hc]
        refine ⟨?_, ?_, ?_, fun _ => ?_⟩
        · show s.currentQuestionIndex + 1 ≤ quiz.questions.length
          omega
        · show s.pendingAdvances - 1 ≤ 1
          omega
        · intro hp
          have hp' : 0 < s.pendingAdvances - 1 := hp
          exact absurd hp' (by omega)
        · show s.pendingAdvances - 1 = 0
          omega

theorem Inv_reachable {quiz : Quiz} {s : SessionState}
    (h : Reachable quiz s) : Inv quiz s := by
  induction h with
  | init =>
      exact ⟨Nat.zero_le _, Nat.zero_le _, fun hp => absurd hp (by decide),
        fun _ => rfl⟩
  | step _ hstep ih => exact Inv_step ih hstep

theorem score_mono_step {quiz : Quiz} {s t : SessionState}
    (hstep : Step quiz s t) : s.score ≤ t.score := by
  cases hstep with
  | selectOpt i =>
      unfold selectOption
      by_cases ha : s.answered = true
      · rw [if_pos ha]
      · rw [if_neg ha]
  | submit =>
      unfold submitAnswer
      cases hsel : s.selectedAnswer with
      | none => exact Nat.le_refl _
      | some selIdx =>
          cases ha : s.answered with
          | true => exact Nat.le_refl _
          | false =>
              cases hq : quiz.questions[s.currentQuestionIndex]? with
              | none => exact Nat.le_refl _
              | some q => exact Nat.le_add_right _ _
  | advance h =>
      have := (nextQuestion_fields quiz
        { s with pendingAdvances := s.pendingAdvances - 1 }).2.1
      rw [this]

/-- C9: in every session state reachable within a single attempt, the
question index never exceeds `questions.length`; no step of the attempt
(option selection, submit, or a firing auto-advance) ever decreases the
score, and every step keeps the index within bounds; and each advance
(`nextQuestion`) increments the question index by exactly 1. -/
theorem session_invariants (quiz : Quiz) (s : SessionState)
    (hs : Reachable quiz s) :
    s.currentQuestionIndex ≤ quiz.questions.length ∧
    (∀ t : SessionState, Step quiz s t →
      s.score ≤ t.score ∧ t.currentQuestionIndex ≤ quiz.questions.length) ∧
    (∀ u : SessionState,
      (nextQuestion quiz u).currentQuestionIndex = u.currentQuestionIndex + 1) := by
  refine ⟨(Inv_reachable hs).1, fun t hstep => ⟨score_mono_step hstep,
    (Inv_step (Inv_reachable hs) hstep).1⟩, fun u => ?_⟩
  by_cases hc : quiz.questions.length ≤ u.currentQuestionIndex + 1 <;>
    simp [nextQuestion, hc]

/-- Witness for C9 at the concrete quiz and the initial session state. -/
theorem session_invariants_witness :
    initState.currentQuestionIndex ≤ sampleQuiz.questions.length ∧
    (∀ t : SessionState, Step sampleQuiz initState t →
      initState.score ≤ t.score ∧
      t.currentQuestionIndex ≤ sampleQuiz.questions.length) ∧
    (∀ u : SessionState,
      (nextQuestion sampleQuiz u).currentQuestionIndex =
        u.currentQuestionIndex + 1) :=
  session_invariants sampleQuiz initState Reachable.init

/-- C3, evaluated at the failing trace: submitting leaves one scheduled
advance callback; `selectSubject` carries it over untouched (the source
stores no timer id and contains no `clearTimeout`), and when the leftover
callback fires it moves the freshly started session from question index 0
to index 1 — the pending advance is not cancelled and acts on the new
state, skipping the new quiz's first question. -/
theorem staleTimer_fires_after_reselect :
    afterSubmit.pendingAdvances = 1 ∧
    (selectSubject sampleQuiz afterSubmit).2 =
      some { currentQuestionIndex := 0, score := 0, selectedAnswer := none,
             answered := false, pendingAdvances := 1 } ∧
    (nextQuestion sampleQuiz
        { currentQuestionIndex := 0, score := 0, selectedAnswer := none,
          answered := false, pendingAdvances := 0 }).currentQuestionIndex = 1 :=
  ⟨rfl, rfl, rfl⟩

/-- C4, evaluated at the failing input: from the Complete state the Play
Again button runs `startQuiz`, which never resets `currentQuestionIndex`;
`renderQuestion` then reads `questions[2]` (`undefined` in JS) and throws
at the `question.question` access, so no InProgress state with an index in
`[0, questions.length)` is produced. -/
theorem playAgain_fails_at_complete :
    completeState.currentQuestionIndex = sampleQuiz.questions.length ∧
    startQuiz sampleQuiz completeState = none :=
  ⟨rfl, rfl⟩

end QuizApp

namespace QuizApp

/-- C5 counterexample: on a document whose quiz object has no `questions`
field, `loadQuizzes` does not fail at all — it succeeds and returns the
malformed `quizzes` value, so no `DataMalformed` failure (and hence no
malformed-data notification) ever happens. -/
theorem loadQuizzes_accepts_malformed :
    loadQuizzes { ok := true, body := some malformedDoc } =
      .ok (some (.arr [.obj [("title", .str "HTML"),
        ("icon", .str "icon.svg")]])) := rfl

/-- C5, amended: `loadQuizzes` performs no shape validation.  Whenever the
response is ok and its body parses as JSON, it succeeds and assigns
`data.quizzes` unchecked, whatever fields are present or absent; only a
fetch/HTTP failure or a parse rejection makes it fail. -/
theorem loadQuizzes_no_shape_validation (resp : FetchResponse) (d : Json)
    (hok : resp.ok = true) (hbody : resp.body = some d) :
    loadQuizzes resp = .ok (getField d "quizzes") := by
  unfold loadQuizzes
  rw [hok, hbody]
  simp

/-- Witness for the amended C5 at the malformed document. -/
theorem loadQuizzes_no_shape_validation_witness :
    loadQuizzes { ok := true, body := some malformedDoc } =
      .ok (getField malformedDoc "quizzes") :=
  loadQuizzes_no_shape_validation
    { ok := true, body := some malformedDoc } malformedDoc rfl rfl

end QuizApp
